import Mathlib

/-
Shallow embedding of the autorunner repository (src/autorunner/cli.py and
src/autorunner/config.py).

Python floats appearing here (scale factors, confidence thresholds) are exact
ratios of small integers, modelled as rationals.  Python's `int()` conversion
truncates toward zero, modelled by `pyint`.  External effects (pyautogui
screenshots, locateOnScreen, moveTo/click) are modelled by explicit outcome
parameters; an exception raised by an external call is an `Except.error`.
`pyautogui.size()` always returns the size reported by the input subsystem;
it is never affected by screenshots.
-/

namespace Autorunner

/-- Python `int()` on a rational: truncation toward zero
(numerator T-divided by the positive denominator). -/
def pyint (q : ℚ) : ℤ := q.num.tdiv (q.den : ℤ)

/-- The fixed safe margin from screen edges used in
`AutoClicker.find_and_click` (cli.py line 255: `margin = 20`). -/
def margin : ℤ := 20

/-- A match rectangle returned by `pyautogui.locateOnScreen`, in capture-space
coordinates (`location.left/top/width/height`, all non-negative integers). -/
structure Box where
  left : ℕ
  top : ℕ
  width : ℕ
  height : ℕ
deriving DecidableEq, Repr

/-- The screen-geometry fields of `AutoClicker` after `__init__`:
`self.screen_width`, `self.screen_height`, `self.scale_factor_x`,
`self.scale_factor_y`. -/
structure ScaleState where
  screen_width : ℕ
  screen_height : ℕ
  scale_factor_x : ℚ
  scale_factor_y : ℚ
deriving DecidableEq, Repr

/-- `AutoClicker._verify_screen_dimensions` (cli.py lines 102-121), applied to
the state set up by `__init__` (reported size from `pyautogui.size()`, scale
factors already 1.0).  `screenshot` is the outcome of `pyautogui.screenshot()`:
`some (w, h)` on success, `none` when the capture raises (the `except` branch
logs and leaves the state unchanged). -/
def verify_screen_dimensions (reported_w reported_h : ℕ)
    (screenshot : Option (ℕ × ℕ)) : ScaleState :=
  match screenshot with
  | none => ⟨reported_w, reported_h, 1, 1⟩
  | some (actual_w, actual_h) =>
    if actual_w ≠ reported_w ∨ actual_h ≠ reported_h then
      ⟨actual_w, actual_h,
       (actual_w : ℚ) / (reported_w : ℚ), (actual_h : ℚ) / (reported_h : ℚ)⟩
    else
      ⟨reported_w, reported_h, 1, 1⟩

/-- `pyautogui.center(location)` followed by `int(center.x), int(center.y)`
(cli.py lines 239-240): the capture-space center of the match rectangle,
with the half-extents truncated. -/
def capture_center (loc : Box) : ℤ × ℤ :=
  ((loc.left + loc.width / 2 : ℕ), (loc.top + loc.height / 2 : ℕ))

/-- The scaling correction of cli.py lines 244-249: when either scale factor
differs from 1.0 (the `hasattr` guard is always true after `__init__`), the
center coordinates are divided by the scale factors and truncated with
`int()`; otherwise the center is kept as is. -/
def scaled_center (loc : Box) (sx sy : ℚ) : ℤ × ℤ :=
  if sx ≠ 1 ∨ sy ≠ 1 then
    (pyint (((capture_center loc).1 : ℚ) / sx),
     pyint (((capture_center loc).2 : ℚ) / sy))
  else
    capture_center loc

/-- The out-of-bounds / too-close-to-edge test of cli.py line 256. -/
def out_of_safe_bounds (x y screen_w screen_h : ℤ) : Prop :=
  x ≥ screen_w ∨ y ≥ screen_h ∨ x < margin ∨ y < margin ∨
    x > screen_w - margin ∨ y > screen_h - margin

instance (x y w h : ℤ) : Decidable (out_of_safe_bounds x y w h) := by
  unfold out_of_safe_bounds
  infer_instance

/-- The click-point resolution of `find_and_click` (cli.py lines 236-269):
scaled center; if it fails the bounds test, substitute the match's top-left
corner offset by the margin, clamped into the safe interval
(`safe = min(max(margin, corner + margin), screen_dim - margin)`). -/
def resolve_click_point (loc : Box) (sx sy : ℚ) (screen_w screen_h : ℤ) :
    ℤ × ℤ :=
  if out_of_safe_bounds (scaled_center loc sx sy).1 (scaled_center loc sx sy).2
      screen_w screen_h then
    (min (max margin ((loc.left : ℤ) + margin)) (screen_w - margin),
     min (max margin ((loc.top : ℤ) + margin)) (screen_h - margin))
  else
    scaled_center loc sx sy

/-- The click point `find_and_click` actually computes for a located box:
the scale factors come from the stored state, but the screen size for the
bounds check is re-queried from `pyautogui.size()` at click time
(cli.py line 252: `screen_width, screen_height = pyautogui.size()`), so it is
the reported size, not the stored `self.screen_width`/`self.screen_height`. -/
def find_and_click_point (geom : ScaleState) (size_query_w size_query_h : ℕ)
    (loc : Box) : ℤ × ℤ :=
  resolve_click_point loc geom.scale_factor_x geom.scale_factor_y
    (size_query_w : ℤ) (size_query_h : ℤ)

/-- The fallback center-of-screen click of `run_rounds`
(cli.py lines 367-378): `self.screen_width // 2`, `self.screen_height // 2`,
divided by the scale factors (and truncated) when either differs from 1.0. -/
def center_click_point (geom : ScaleState) : ℤ × ℤ :=
  if geom.scale_factor_x ≠ 1 ∨ geom.scale_factor_y ≠ 1 then
    (pyint (((geom.screen_width / 2 : ℕ) : ℚ) / geom.scale_factor_x),
     pyint (((geom.screen_height / 2 : ℕ) : ℚ) / geom.scale_factor_y))
  else
    ((geom.screen_width / 2 : ℕ), (geom.screen_height / 2 : ℕ))

/-- The attribute set of the `Config` class as seen by `hasattr`/`getattr`:
`none` models an attribute that is not defined on the class.  Only the
attributes the claims are about are modelled; the timing attributes are
abstracted by the `Wait` outcome below. -/
structure ConfigAttrs where
  confidence_threshold : Option ℚ
  max_failures_before_center_click : Option ℕ
deriving DecidableEq, Repr

/-- `Config` as written in config.py: `confidence_threshold = 0.8` is defined
(line 21); `max_failures_before_center_click` is not defined anywhere. -/
def config_defaults : ConfigAttrs :=
  { confidence_threshold := some (8 / 10),
    max_failures_before_center_click := none }

/-- The module-level guard of cli.py lines 20-21:
`if not hasattr(Config, 'confidence_threshold'): Config.confidence_threshold = 0.9`. -/
def apply_module_defaults (c : ConfigAttrs) : ConfigAttrs :=
  if c.confidence_threshold.isNone then
    { c with confidence_threshold := some (9 / 10) }
  else
    c

/-- `getattr(self.config, 'confidence_threshold', 0.9)` (cli.py line 212). -/
def effective_confidence (c : ConfigAttrs) : ℚ :=
  c.confidence_threshold.getD (9 / 10)

/-- `getattr(self.config, 'max_failures_before_center_click', 5)`
(cli.py line 364). -/
def failure_threshold (c : ConfigAttrs) : ℕ :=
  c.max_failures_before_center_click.getD 5

/-- An exception raised by a pyautogui call, classified by the two tests the
code applies to it: whether `str(e)` contains "confidence"
(`confidence_unsupported`), and otherwise whether it came from a locate
call (`locate_failure`) or from the pointer move/click (`input_failure`). -/
inductive PyErr where
  | confidence_unsupported
  | locate_failure
  | input_failure
deriving DecidableEq, Repr

/-- The `"confidence" in str(e)` test of cli.py lines 217 and 231. -/
def mentions_confidence : PyErr → Bool
  | .confidence_unsupported => true
  | _ => false

deriving instance DecidableEq for Except

/-- Outcomes of the external calls a single `find_and_click` invocation makes:
each `locateOnScreen` call either returns a match (`some`), returns no match
(`none`), or raises; `move_click` is the combined outcome of
`pyautogui.moveTo` and `pyautogui.click`.  `alt_is_file` is
`alt_image_path and Path(alt_image_path).is_file()` (cli.py line 224). -/
structure MatchEnv where
  locate_primary_conf : Except PyErr (Option Box)
  locate_primary_exact : Except PyErr (Option Box)
  alt_is_file : Bool
  locate_alt_conf : Except PyErr (Option Box)
  locate_alt_exact : Except PyErr (Option Box)
  move_click : Except PyErr Unit
deriving DecidableEq, Repr

/-- The inner try/except around one `locateOnScreen` call (cli.py lines
211-221 and 226-234): try the confidence-weighted match; on an exception
mentioning "confidence", retry once without confidence; re-raise any other
exception. -/
def locate_with_fallback (conf exact : Except PyErr (Option Box)) :
    Except PyErr (Option Box) :=
  match conf with
  | .ok l => .ok l
  | .error e => if mentions_confidence e then exact else .error e

/-- The location-resolution part of `find_and_click` (cli.py lines 207-234):
primary template first (with confidence fallback); if no match and the
alternative image is a file, the alternative template (with the same
confidence fallback). -/
def resolve_location (env : MatchEnv) : Except PyErr (Option Box) :=
  match locate_with_fallback env.locate_primary_conf env.locate_primary_exact with
  | .error e => .error e
  | .ok (some l) => .ok (some l)
  | .ok none =>
    if env.alt_is_file then
      locate_with_fallback env.locate_alt_conf env.locate_alt_exact
    else
      .ok none

/-- The body of the outer `try` of `find_and_click` (cli.py lines 199-287):
resolve a location; if found, move and click (an exception there propagates
to the outer handler) and return `true`; otherwise return `false`. -/
def find_and_click_body (env : MatchEnv) : Except PyErr Bool :=
  match resolve_location env with
  | .error e => .error e
  | .ok none => .ok false
  | .ok (some _) =>
    match env.move_click with
    | .ok _ => .ok true
    | .error e => .error e

/-- `find_and_click` as a whole: the outer `except Exception` handler
(cli.py lines 289-291) turns every exception into a logged `return False`. -/
def find_and_click (env : MatchEnv) : Bool :=
  match find_and_click_body env with
  | .ok b => b
  | .error _ => false

/-- The wait performed at the end of a loop iteration (or of the startup
probe), identified by the configuration value it sleeps for. -/
inductive Wait where
  | between_rounds_wait_time
  | round_wait_time
  | retry_delay
  | retry_delay_double
  | no_wait
deriving DecidableEq, Repr

/-- The mutable loop state of `run_rounds`: `rounds_completed`,
`looking_for_end_button`, and `self.start_button_failures` (created lazily
via `hasattr` with initial value 0, modelled as starting at 0). -/
structure RunState where
  rounds_completed : ℕ
  looking_for_end : Bool
  start_button_failures : ℕ
deriving DecidableEq, Repr

/-- The end-button attempt of `run_rounds`: primary end button, then the
alternative end button only when the primary failed and
`self.has_alt_end_button` (cli.py lines 305-307 and 330-334). -/
def end_click_result (has_alt end_found end_alt_found : Bool) : Bool :=
  if !end_found && has_alt then end_alt_found else end_found

/-- The startup probe of `run_rounds` (cli.py lines 302-323): end button
(primary then alternative) first; on success state SeekingStart
(`looking_for_end = false`) and wait `between_rounds_wait_time`; else the
start button, on success state SeekingEnd and wait `round_wait_time`; else
SeekingStart with no wait.  `rounds_completed` stays at its initial 0. -/
def startup_probe (has_alt end_found end_alt_found start_found : Bool) :
    RunState × Wait :=
  if end_click_result has_alt end_found end_alt_found then
    (⟨0, false, 0⟩, .between_rounds_wait_time)
  else if start_found then
    (⟨0, true, 0⟩, .round_wait_time)
  else
    (⟨0, false, 0⟩, .no_wait)

/-- The outcome of one main-loop iteration: the new loop state, the
fallback center click if one was performed, and the wait. -/
structure StepResult where
  state : RunState
  center_click : Option (ℤ × ℤ)
  wait : Wait
deriving DecidableEq, Repr

/-- One iteration of the main loop of `run_rounds` (cli.py lines 326-387).
`end_found`, `end_alt_found`, `start_found` are the outcomes of the
`find_and_click` calls the iteration would make. -/
def loop_step (cfg : ConfigAttrs) (geom : ScaleState) (has_alt : Bool)
    (st : RunState) (end_found end_alt_found start_found : Bool) :
    StepResult :=
  if st.looking_for_end then
    if end_click_result has_alt end_found end_alt_found then
      { state := { st with rounds_completed := st.rounds_completed + 1,
                           looking_for_end := false },
        center_click := none,
        wait := .between_rounds_wait_time }
    else
      { state := st, center_click := none, wait := .retry_delay }
  else
    if start_found then
      { state := { st with looking_for_end := true },
        center_click := none,
        wait := .round_wait_time }
    else
      if failure_threshold cfg ≤ st.start_button_failures + 1 then
        { state := { st with start_button_failures := 0 },
          center_click := some (center_click_point geom),
          wait := .retry_delay_double }
      else
        { state := { st with start_button_failures := st.start_button_failures + 1 },
          center_click := none,
          wait := .retry_delay }

theorem pyint_intCast (n : ℤ) : pyint (n : ℚ) = n := by
  simp [pyint]

theorem pyint_natCast (n : ℕ) : pyint (n : ℚ) = n := by
  simp [pyint]

theorem pyint_eq_floor (q : ℚ) (h : 0 ≤ q) : pyint q = ⌊q⌋ := by
  rw [pyint, Rat.floor_def,
    Int.tdiv_eq_ediv (Rat.num_nonneg.mpr h) (Int.natCast_nonneg _)]

/-- C10: the confidence threshold actually used for matching is the 0.8
defined in the Config class; the module-level fallback assignment of 0.9 in
cli.py is unreachable because Config always defines confidence_threshold,
so the guard leaves Config unchanged. -/
theorem confidence_threshold_is_config_value :
    effective_confidence (apply_module_defaults config_defaults) = 8 / 10 ∧
    apply_module_defaults config_defaults = config_defaults := by
  constructor <;> rfl

/-- C8: the scale factors computed by the reconciliation are exactly
capturedDim/reportedDim, equal 1 when the reported and captured sizes are
identical, and stay 1 (with the reported size kept as authoritative) when
the screen capture fails. -/
theorem scale_factors_exact (reported_w reported_h captured_w captured_h : ℕ)
    (hw : 0 < reported_w) (hh : 0 < reported_h) :
    ((verify_screen_dimensions reported_w reported_h
        (some (captured_w, captured_h))).scale_factor_x
          = (captured_w : ℚ) / (reported_w : ℚ) ∧
     (verify_screen_dimensions reported_w reported_h
        (some (captured_w, captured_h))).scale_factor_y
          = (captured_h : ℚ) / (reported_h : ℚ)) ∧
    (captured_w = reported_w → captured_h = reported_h →
      (verify_screen_dimensions reported_w reported_h
        (some (captured_w, captured_h))).scale_factor_x = 1 ∧
      (verify_screen_dimensions reported_w reported_h
        (some (captured_w, captured_h))).scale_factor_y = 1) ∧
    ((verify_screen_dimensions reported_w reported_h none).scale_factor_x = 1 ∧
     (verify_screen_dimensions reported_w reported_h none).scale_factor_y = 1 ∧
     (verify_screen_dimensions reported_w reported_h none).screen_width
        = reported_w ∧
     (verify_screen_dimensions reported_w reported_h none).screen_height
        = reported_h) := by
  refine ⟨?_, ?_, rfl, rfl, rfl, rfl⟩
  · by_cases hd : captured_w ≠ reported_w ∨ captured_h ≠ reported_h
    · simp [verify_screen_dimensions, hd]
    · push_neg at hd
      obtain ⟨h1, h2⟩ := hd
      subst h1; subst h2
      rw [div_self (Nat.cast_ne_zero.mpr hw.ne'),
          div_self (Nat.cast_ne_zero.mpr hh.ne')]
      simp [verify_screen_dimensions]
  · intro h1 h2
    subst h1; subst h2
    simp [verify_screen_dimensions]

theorem scale_factors_exact_witness :
    (verify_screen_dimensions 1920 1080 (some (3840, 2160))).scale_factor_x
      = (3840 : ℚ) / (1920 : ℚ) ∧
    (verify_screen_dimensions 1920 1080 (some (1920, 1080))).scale_factor_x = 1 ∧
    (verify_screen_dimensions 1920 1080 none).scale_factor_x = 1 := by
  have h1 := scale_factors_exact 1920 1080 3840 2160 (by decide) (by decide)
  have h2 := scale_factors_exact 1920 1080 1920 1080 (by decide) (by decide)
  exact ⟨h1.1.1, (h2.2.1 rfl rfl).1, h1.2.2.1⟩

/-- C7: the startup probe tries the end button (primary then alternate)
first; on success the initial state is SeekingStart with wait
between_rounds_wait_time and rounds_completed 0; otherwise a found start
button gives SeekingEnd with wait round_wait_time; otherwise SeekingStart
with no wait. -/
theorem startup_probe_cases (has_alt e ea s : Bool) :
    (end_click_result has_alt e ea = true →
      startup_probe has_alt e ea s
        = (⟨0, false, 0⟩, .between_rounds_wait_time)) ∧
    (end_click_result has_alt e ea = false → s = true →
      startup_probe has_alt e ea s = (⟨0, true, 0⟩, .round_wait_time)) ∧
    (end_click_result has_alt e ea = false → s = false →
      startup_probe has_alt e ea s = (⟨0, false, 0⟩, .no_wait)) := by
  cases has_alt <;> cases e <;> cases ea <;> cases s <;> decide

theorem startup_probe_cases_witness :
    startup_probe true true false false
      = (⟨0, false, 0⟩, .between_rounds_wait_time) ∧
    startup_probe false false false true = (⟨0, true, 0⟩, .round_wait_time) ∧
    startup_probe false false false false = (⟨0, false, 0⟩, .no_wait) :=
  ⟨(startup_probe_cases true true false false).1 (by decide),
   (startup_probe_cases false false false true).2.1 (by decide) rfl,
   (startup_probe_cases false false false false).2.2 (by decide) rfl⟩

/-- C3: for every match rectangle and every pair of scale factors the
resolved click point lies within [margin, screenDim - margin] on both axes
(for any screen at least two margins wide and high). -/
theorem resolve_click_point_in_safe_bounds (loc : Box) (sx sy : ℚ)
    (screen_w screen_h : ℤ) (hw : 2 * margin ≤ screen_w)
    (hh : 2 * margin ≤ screen_h) :
    margin ≤ (resolve_click_point loc sx sy screen_w screen_h).1 ∧
    (resolve_click_point loc sx sy screen_w screen_h).1 ≤ screen_w - margin ∧
    margin ≤ (resolve_click_point loc sx sy screen_w screen_h).2 ∧
    (resolve_click_point loc sx sy screen_w screen_h).2 ≤ screen_h - margin := by
  unfold resolve_click_point
  by_cases hb : out_of_safe_bounds (scaled_center loc sx sy).1
      (scaled_center loc sx sy).2 screen_w screen_h
  · rw [if_pos hb]
    unfold margin at *
    refine ⟨?_, ?_, ?_, ?_⟩ <;> simp only [] <;> omega
  · rw [if_neg hb]
    unfold out_of_safe_bounds at hb
    push_neg at hb
    unfold margin at *
    omega

theorem resolve_click_point_in_safe_bounds_witness :
    resolve_click_point ⟨100, 100, 50, 50⟩ 1 1 1920 1080 = (125, 125) ∧
    (margin ≤ (resolve_click_point ⟨100, 100, 50, 50⟩ 1 1 1920 1080).1 ∧
     (resolve_click_point ⟨100, 100, 50, 50⟩ 1 1 1920 1080).1 ≤ 1920 - margin ∧
     margin ≤ (resolve_click_point ⟨100, 100, 50, 50⟩ 1 1 1920 1080).2 ∧
     (resolve_click_point ⟨100, 100, 50, 50⟩ 1 1 1920 1080).2 ≤ 1080 - margin) :=
  ⟨by decide,
   resolve_click_point_in_safe_bounds ⟨100, 100, 50, 50⟩ 1 1 1920 1080
     (by decide) (by decide)⟩

/-- C4: when the scaled center passes the safe-bounds test, the resolved
click point is exactly that center, which is the capture-space center
divided (componentwise, with truncation) by the scale factors; no
corner-substitution is applied. -/
theorem resolve_click_point_keeps_safe_center (loc : Box) (sx sy : ℚ)
    (screen_w screen_h : ℤ)
    (hsafe : ¬ out_of_safe_bounds (scaled_center loc sx sy).1
        (scaled_center loc sx sy).2 screen_w screen_h) :
    resolve_click_point loc sx sy screen_w screen_h = scaled_center loc sx sy ∧
    scaled_center loc sx sy
      = (pyint (((capture_center loc).1 : ℚ) / sx),
         pyint (((capture_center loc).2 : ℚ) / sy)) := by
  constructor
  · unfold resolve_click_point
    rw [if_neg hsafe]
  · unfold scaled_center
    by_cases h : sx ≠ 1 ∨ sy ≠ 1
    · rw [if_pos h]
    · rw [if_neg h]
      push_neg at h
      obtain ⟨h1, h2⟩ := h
      rw [h1, h2]
      simp [div_one, pyint_intCast]

theorem resolve_click_point_keeps_safe_center_witness :
    resolve_click_point ⟨100, 100, 50, 50⟩ 1 1 1920 1080
      = scaled_center ⟨100, 100, 50, 50⟩ 1 1 ∧
    scaled_center ⟨100, 100, 50, 50⟩ 1 1
      = (pyint (((capture_center ⟨100, 100, 50, 50⟩).1 : ℚ) / 1),
         pyint (((capture_center ⟨100, 100, 50, 50⟩).2 : ℚ) / 1)) :=
  resolve_click_point_keeps_safe_center ⟨100, 100, 50, 50⟩ 1 1 1920 1080
    (by decide)

theorem center_click_point_eq_scaled (geom : ScaleState) :
    center_click_point geom
      = (pyint (((geom.screen_width / 2 : ℕ) : ℚ) / geom.scale_factor_x),
         pyint (((geom.screen_height / 2 : ℕ) : ℚ) / geom.scale_factor_y)) := by
  unfold center_click_point
  by_cases h : geom.scale_factor_x ≠ 1 ∨ geom.scale_factor_y ≠ 1
  · rw [if_pos h]
  · rw [if_neg h]
    push_neg at h
    obtain ⟨h1, h2⟩ := h
    rw [h1, h2]
    simp [div_one, pyint_natCast]

/-- C5: when the failure counter reaches the configured threshold (default 5)
in state SeekingStart, the iteration performs a center-of-screen click at
(screen_width / 2, screen_height / 2) with scale correction applied, resets
the failure counter to 0, waits retry_delay * 2, and stays in SeekingStart. -/
theorem center_click_on_threshold (cfg : ConfigAttrs) (geom : ScaleState)
    (has_alt : Bool) (st : RunState) (e ea : Bool)
    (hstate : st.looking_for_end = false)
    (hcount : st.start_button_failures + 1 = failure_threshold cfg) :
    (loop_step cfg geom has_alt st e ea false).center_click
      = some (pyint (((geom.screen_width / 2 : ℕ) : ℚ) / geom.scale_factor_x),
              pyint (((geom.screen_height / 2 : ℕ) : ℚ) / geom.scale_factor_y)) ∧
    (loop_step cfg geom has_alt st e ea false).state.start_button_failures = 0 ∧
    (loop_step cfg geom has_alt st e ea false).wait = .retry_delay_double ∧
    (loop_step cfg geom has_alt st e ea false).state.looking_for_end = false := by
  have hth : failure_threshold cfg ≤ st.start_button_failures + 1 := hcount.ge
  simp [loop_step, hstate, hth, center_click_point_eq_scaled]

theorem center_click_on_threshold_witness :
    (loop_step config_defaults ⟨1920, 1080, 1, 1⟩ false ⟨0, false, 4⟩
        false false false).center_click
      = some (pyint (((1920 / 2 : ℕ) : ℚ) / 1),
              pyint (((1080 / 2 : ℕ) : ℚ) / 1)) ∧
    (loop_step config_defaults ⟨1920, 1080, 1, 1⟩ false ⟨0, false, 4⟩
        false false false).state.start_button_failures = 0 ∧
    (loop_step config_defaults ⟨1920, 1080, 1, 1⟩ false ⟨0, false, 4⟩
        false false false).wait = .retry_delay_double ∧
    (loop_step config_defaults ⟨1920, 1080, 1, 1⟩ false ⟨0, false, 4⟩
        false false false).state.looking_for_end = false :=
  center_click_on_threshold config_defaults ⟨1920, 1080, 1, 1⟩ false
    ⟨0, false, 4⟩ false false rfl rfl

/-- C6: in state SeekingEnd a successful end-button click (primary or
alternate) moves the state to SeekingStart and increments rounds_completed
by exactly 1; rounds_completed is unchanged by a failed attempt in
SeekingEnd and by every SeekingStart iteration. -/
theorem round_counting (cfg : ConfigAttrs) (geom : ScaleState)
    (has_alt : Bool) (st : RunState) (e ea s : Bool) :
    (st.looking_for_end = true → end_click_result has_alt e ea = true →
      (loop_step cfg geom has_alt st e ea s).state.looking_for_end = false ∧
      (loop_step cfg geom has_alt st e ea s).state.rounds_completed
        = st.rounds_completed + 1) ∧
    (st.looking_for_end = true → end_click_result has_alt e ea = false →
      (loop_step cfg geom has_alt st e ea s).state.rounds_completed
        = st.rounds_completed) ∧
    (st.looking_for_end = false →
      (loop_step cfg geom has_alt st e ea s).state.rounds_completed
        = st.rounds_completed) := by
  refine ⟨fun h1 h2 => ?_, fun h1 h2 => ?_, fun h1 => ?_⟩
  · simp [loop_step, h1, h2]
  · simp [loop_step, h1, h2]
  · simp only [loop_step, h1]
    cases s
    · simp only [Bool.false_eq_true, if_false]
      split <;> rfl
    · rfl

theorem round_counting_witness :
    ((loop_step config_defaults ⟨1920, 1080, 1, 1⟩ true ⟨2, true, 0⟩
        false true false).state.looking_for_end = false ∧
     (loop_step config_defaults ⟨1920, 1080, 1, 1⟩ true ⟨2, true, 0⟩
        false true false).state.rounds_completed = 3) ∧
    (loop_step config_defaults ⟨1920, 1080, 1, 1⟩ true ⟨2, true, 0⟩
        false false false).state.rounds_completed = 2 ∧
    (loop_step config_defaults ⟨1920, 1080, 1, 1⟩ true ⟨2, false, 0⟩
        false false false).state.rounds_completed = 2 :=
  ⟨(round_counting config_defaults ⟨1920, 1080, 1, 1⟩ true ⟨2, true, 0⟩
      false true false).1 rfl rfl,
   (round_counting config_defaults ⟨1920, 1080, 1, 1⟩ true ⟨2, true, 0⟩
      false false false).2.1 rfl rfl,
   (round_counting config_defaults ⟨1920, 1080, 1, 1⟩ true ⟨2, false, 0⟩
      false false false).2.2 rfl⟩

theorem locate_with_fallback_self (x : Except PyErr (Option Box)) :
    locate_with_fallback x x = x := by
  cases x <;> simp [locate_with_fallback]

theorem resolve_location_retry (env : MatchEnv) (e : PyErr)
    (he : env.locate_primary_conf = .error e)
    (hm : mentions_confidence e = true) :
    resolve_location env
      = resolve_location
          { env with locate_primary_conf := env.locate_primary_exact } := by
  have h1 : locate_with_fallback env.locate_primary_conf env.locate_primary_exact
      = env.locate_primary_exact := by
    rw [he]
    simp [locate_with_fallback, hm]
  unfold resolve_location
  rw [h1, locate_with_fallback_self]

/-- C9: a single template lookup never propagates an error to the round
state machine: a confidence-unsupported exception on the primary
confidence-weighted match makes the lookup behave exactly as if the
exact-match attempt had been the primary one (no error), and any failure
reaching the outer handler yields the soft result false. -/
theorem lookup_soft_failure (env : MatchEnv) :
    (∀ e : PyErr, env.locate_primary_conf = .error e →
      mentions_confidence e = true →
      find_and_click env
        = find_and_click
            { env with locate_primary_conf := env.locate_primary_exact }) ∧
    (∀ e : PyErr, find_and_click_body env = .error e →
      find_and_click env = false) := by
  constructor
  · intro e he hm
    unfold find_and_click find_and_click_body
    rw [resolve_location_retry env e he hm]
  · intro e he
    unfold find_and_click
    rw [he]

theorem lookup_soft_failure_witness :
    find_and_click ⟨.error .confidence_unsupported, .ok (some ⟨1, 2, 30, 40⟩),
        false, .ok none, .ok none, .ok ()⟩
      = find_and_click ⟨.ok (some ⟨1, 2, 30, 40⟩), .ok (some ⟨1, 2, 30, 40⟩),
          false, .ok none, .ok none, .ok ()⟩ ∧
    find_and_click ⟨.error .locate_failure, .ok none, false, .ok none,
        .ok none, .ok ()⟩ = false :=
  ⟨(lookup_soft_failure ⟨.error .confidence_unsupported,
      .ok (some ⟨1, 2, 30, 40⟩), false, .ok none, .ok none, .ok ()⟩).1
      .confidence_unsupported rfl rfl,
   (lookup_soft_failure ⟨.error .locate_failure, .ok none, false, .ok none,
      .ok none, .ok ()⟩).2 .locate_failure rfl⟩

/-- C1 counterexample: with a located primary match and a pointer move/click
that raises, the exception reaches the outer handler of find_and_click and
the call returns the soft result false — the input-controller exception IS
converted into a soft not-clicked result instead of ending the loop. -/
theorem input_error_converted_to_soft_false :
    find_and_click_body ⟨.ok (some ⟨100, 100, 50, 50⟩), .ok none, false,
        .ok none, .ok none, .error .input_failure⟩
      = .error .input_failure ∧
    find_and_click ⟨.ok (some ⟨100, 100, 50, 50⟩), .ok none, false,
        .ok none, .ok none, .error .input_failure⟩ = false :=
  ⟨rfl, rfl⟩

/-- C1 (amended): an exception raised by the pointer move or click during a
find-and-click attempt is caught by the attempt's outer handler and
converted into a soft not-clicked (false) result; no exception escapes a
find-and-click attempt to end the loop. -/
theorem move_click_error_is_soft (env : MatchEnv) (b : Box) (e : PyErr)
    (hloc : resolve_location env = .ok (some b))
    (hmc : env.move_click = .error e) :
    find_and_click env = false := by
  unfold find_and_click find_and_click_body
  rw [hloc, hmc]

theorem move_click_error_is_soft_witness :
    find_and_click ⟨.ok (some ⟨5, 6, 7, 8⟩), .ok none, false, .ok none,
        .ok none, .error .input_failure⟩ = false :=
  move_click_error_is_soft ⟨.ok (some ⟨5, 6, 7, 8⟩), .ok none, false,
    .ok none, .ok none, .error .input_failure⟩ ⟨5, 6, 7, 8⟩ .input_failure
    rfl rfl

/-- C2 counterexample: reported 1920x1080, captured 3840x2160.  The captured
size is adopted as the stored screen size, yet the safe-margin bounds check
of the next click uses the size re-queried from the input subsystem
(1920x1080), producing (120, 1060); with the captured dimensions the same
match would have produced (62, 1500). -/
theorem bound_check_not_on_captured_size :
    (verify_screen_dimensions 1920 1080 (some (3840, 2160))).screen_width
      = 3840 ∧
    (verify_screen_dimensions 1920 1080 (some (3840, 2160))).screen_height
      = 2160 ∧
    find_and_click_point (verify_screen_dimensions 1920 1080 (some (3840, 2160)))
        1920 1080 ⟨100, 2900, 50, 200⟩ = (120, 1060) ∧
    resolve_click_point ⟨100, 2900, 50, 200⟩
        (verify_screen_dimensions 1920 1080 (some (3840, 2160))).scale_factor_x
        (verify_screen_dimensions 1920 1080 (some (3840, 2160))).scale_factor_y
        3840 2160 = (62, 1500) := by
  have hs : verify_screen_dimensions 1920 1080 (some (3840, 2160))
      = ⟨3840, 2160, 2, 2⟩ := by
    simp only [verify_screen_dimensions]
    norm_num
  have hpx : pyint ((125 : ℚ) / 2) = 62 := by
    rw [pyint_eq_floor _ (by norm_num)]
    norm_num
  have hpy : pyint ((3000 : ℚ) / 2) = 1500 := by
    rw [pyint_eq_floor _ (by norm_num)]
    norm_num
  have hsc : scaled_center ⟨100, 2900, 50, 200⟩ 2 2 = (62, 1500) := by
    have hc : capture_center ⟨100, 2900, 50, 200⟩ = (125, 3000) := by decide
    unfold scaled_center
    rw [if_pos (by norm_num), hc]
    simp only [Prod.fst, Prod.snd]
    push_cast
    rw [hpx, hpy]
  refine ⟨rfl, rfl, ?_, ?_⟩
  · unfold find_and_click_point
    rw [hs]
    simp only []
    unfold resolve_click_point
    rw [hsc]
    rw [if_pos (by decide)]
    decide
  · rw [hs]
    simp only []
    unfold resolve_click_point
    rw [hsc]
    rw [if_neg (by decide)]

/-- C2 (amended): after a reported/captured size mismatch the captured size
is adopted as the stored authoritative screen size (and the derived scale
factors are captured/reported), but the safe-margin bounds check before each
click uses the screen size re-queried from the input subsystem at click
time, whatever that query returns, not the stored captured size. -/
theorem captured_size_adoption (reported_w reported_h captured_w captured_h : ℕ)
    (hne : captured_w ≠ reported_w ∨ captured_h ≠ reported_h) :
    (verify_screen_dimensions reported_w reported_h
        (some (captured_w, captured_h))).screen_width = captured_w ∧
    (verify_screen_dimensions reported_w reported_h
        (some (captured_w, captured_h))).screen_height = captured_h ∧
    ∀ (query_w query_h : ℕ) (loc : Box),
      find_and_click_point
          (verify_screen_dimensions reported_w reported_h
            (some (captured_w, captured_h))) query_w query_h loc
        = resolve_click_point loc ((captured_w : ℚ) / (reported_w : ℚ))
            ((captured_h : ℚ) / (reported_h : ℚ)) (query_w : ℤ) (query_h : ℤ) := by
  refine ⟨?_, ?_, ?_⟩ <;> simp [verify_screen_dimensions, hne,
    find_and_click_point]

theorem captured_size_adoption_witness :
    (verify_screen_dimensions 1920 1080 (some (3840, 2160))).screen_width
      = 3840 ∧
    find_and_click_point (verify_screen_dimensions 1920 1080 (some (3840, 2160)))
        1920 1080 ⟨100, 2900, 50, 200⟩
      = resolve_click_point ⟨100, 2900, 50, 200⟩ ((3840 : ℚ) / (1920 : ℚ))
          ((2160 : ℚ) / (1080 : ℚ)) 1920 1080 :=
  ⟨(captured_size_adoption 1920 1080 3840 2160 (by decide)).1,
   (captured_size_adoption 1920 1080 3840 2160 (by decide)).2.2
     1920 1080 ⟨100, 2900, 50, 200⟩⟩

end Autorunner
